import Mathlib

/-
  Shallow embedding of the SGM (Spend Growth Management) simulation engine
  from sgm_simulator.py.  Python floats are modelled as real numbers, Python
  ints as integers, fallible construction as Except, and optional values as
  Option.  Each definition mirrors the corresponding Python function.
-/

open Classical

noncomputable section

namespace SGM

/-- SGM Rule configuration (dataclass SGMRule). -/
structure SGMRule where
  name : String
  growth_percentage : ℝ
  min_growth_dollars : ℝ
  enabled : Bool
  weekly_recalc_enabled : Bool
  weekly_recalc_day : ℤ
  validate_bounds : Bool

/-- Error message for a growth percentage outside the PRD bounds. -/
def growth_bounds_msg : String := "Growth percentage must be between 5% and 50% per PRD"

/-- Error message for minimum growth dollars below the PRD floor. -/
def min_dollars_msg : String := "Minimum growth dollars must be at least $20 per PRD"

/-- Error message for a weekly recalculation day outside 0-6. -/
def recalc_day_msg : String := "Weekly recalculation day must be 0-6 (Monday-Sunday)"

/-- SGMRule.__post_init__: validates growth percentage and minimum dollars only
when validate_bounds is set, and always validates the weekly recalculation
day.  Raising ValueError is modelled as returning Except.error. -/
def SGMRule.post_init (r : SGMRule) : Except String SGMRule :=
  if r.validate_bounds = true ∧ ¬((5 : ℝ) ≤ r.growth_percentage ∧ r.growth_percentage ≤ 50) then
    Except.error growth_bounds_msg
  else if r.validate_bounds = true ∧ r.min_growth_dollars < 20 then
    Except.error min_dollars_msg
  else if ¬((0 : ℤ) ≤ r.weekly_recalc_day ∧ r.weekly_recalc_day ≤ 6) then
    Except.error recalc_day_msg
  else
    Except.ok r

/-- Manual allowance with expiration support (dataclass ManualAllowance). -/
structure ManualAllowance where
  amount : ℝ
  created_day : ℤ
  expiration_days : Option ℤ
  reason : String

/-- ManualAllowance.is_expired: expired iff an expiration offset is set and
current_day is at least created_day + expiration_days. -/
def ManualAllowance.is_expired (a : ManualAllowance) (current_day : ℤ) : Bool :=
  match a.expiration_days with
  | none => false
  | some e => decide (a.created_day + e ≤ current_day)

/-- ManualAllowance.remaining_amount: 0 if expired, else the full amount. -/
def ManualAllowance.remaining_amount (a : ManualAllowance) (current_day : ℤ) : ℝ :=
  if a.is_expired current_day then 0 else a.amount

/-- Wallet capacity configuration (dataclass WalletConfig). -/
structure WalletConfig where
  model : String
  custom_multiplier : Option ℝ

/-- The default WalletConfig() used when simulate_day receives no config. -/
def defaultWalletConfig : WalletConfig := ⟨"daily_limit_2x", none⟩

/-- WalletConfig.calculate_max_capacity.  The Python condition
`self.model == "custom" and self.custom_multiplier` is truthy only when a
multiplier is present and nonzero. -/
def WalletConfig.calculate_max_capacity (w : WalletConfig) (daily_limit : ℝ) : ℝ :=
  if w.model = "daily_limit_2x" then daily_limit * 2
  else if w.model = "three_day_budget" then daily_limit * 3
  else
    match w.custom_multiplier with
    | some m => if w.model = "custom" ∧ m ≠ 0 then daily_limit * m else daily_limit * 2
    | none => daily_limit * 2

/-- Reserved volumes configuration (dataclass ReservedVolumesConfig). -/
structure ReservedVolumesConfig where
  monthly_volume : ℝ
  billing_day_start : ℤ
  days_in_cycle : ℤ

/-- ReservedVolumesConfig.advance_billing_day: next billing day, wrapping to 1
past the cycle length. -/
def ReservedVolumesConfig.advance_billing_day (rc : ReservedVolumesConfig)
    (current_day : ℤ) : ℤ :=
  if rc.days_in_cycle < current_day + 1 then 1 else current_day + 1

/-- Result of simulating a single day (dataclass DayResult). -/
structure DayResult where
  day_index : ℤ
  billing_day : ℤ
  requested_spend : ℝ
  accepted_spend : ℝ
  rejected_spend : ℝ
  reserved_spend : ℝ
  sgm_spend : ℝ
  daily_spend_limit : ℝ
  wallet_balance_start : ℝ
  wallet_balance_end : ℝ
  wallet_max_capacity : ℝ
  intervention_type : String
  reserved_remaining : ℝ
  cumulative_reserved_used : ℝ
  manual_allowances_used : ℝ
  expired_allowances : ℝ

/-- Python list slice l[-n:]: the last n elements (the whole list when it is
shorter than n). -/
def lastN (n : ℕ) (l : List ℝ) : List ℝ := l.drop (l.length - n)

/-- The weekly-recalculation trigger condition checked at the top of
calculate_daily_spend_limit: recalc enabled, at least 7 history entries,
at least 7 days since the last recalculation, and the current weekday
(day index mod 7) equals the rule target weekday. -/
def recalc_trigger (history_len : ℕ) (rule : SGMRule)
    (current_day_index last_recalc_day : ℤ) : Prop :=
  rule.weekly_recalc_enabled = true ∧ 7 ≤ history_len ∧
    7 ≤ current_day_index - last_recalc_day ∧
    current_day_index % 7 = rule.weekly_recalc_day

instance (n : ℕ) (rule : SGMRule) (d l : ℤ) : Decidable (recalc_trigger n rule d l) := by
  unfold recalc_trigger
  infer_instance

/-- SGMEngine.calculate_daily_spend_limit.  Returns
(daily_limit, last_recalc_day, baseline_spend). -/
def calculate_daily_spend_limit (accepted_history : List ℝ) (rule : SGMRule)
    (current_day_index last_recalc_day : ℤ) (baseline_spend : Option ℝ) :
    ℝ × ℤ × Option ℝ :=
  let fired := recalc_trigger accepted_history.length rule current_day_index last_recalc_day
  let last_recalc_day2 := if fired then current_day_index else last_recalc_day
  let baseline_spend2 :=
    if fired then some ((lastN 7 accepted_history).sum / 7) else baseline_spend
  if accepted_history.length < 7 then
    if accepted_history.length = 0 then
      (rule.min_growth_dollars / 7, last_recalc_day2, baseline_spend2)
    else
      let days_elapsed := accepted_history.length
      let total_so_far := accepted_history.sum
      let days_remaining := 7 - days_elapsed
      let needed_per_day := (rule.min_growth_dollars - total_so_far) / (days_remaining : ℝ)
      let current_avg := total_so_far / (days_elapsed : ℝ)
      let growth_based := current_avg * (1 + rule.growth_percentage / 100)
      (max (max needed_per_day growth_based) (rule.min_growth_dollars / 7),
        last_recalc_day2, baseline_spend2)
  else
    match rule.weekly_recalc_enabled, baseline_spend2 with
    | true, some b =>
      let weekly_baseline := b * 7
      let weekly_growth_limit :=
        max rule.min_growth_dollars (weekly_baseline * (1 + rule.growth_percentage / 100))
      (weekly_growth_limit / 7, last_recalc_day2, baseline_spend2)
    | _, _ =>
      let recent_7 := (lastN 7 accepted_history).sum
      let recent_6 := (lastN 6 accepted_history).sum
      let growth_factor := (1 + rule.growth_percentage / 100) ^ ((1 : ℝ) / 7)
      let exponential_limit := recent_7 * growth_factor - recent_6
      let linear_limit := recent_7 + rule.min_growth_dollars / 7 - recent_6
      (max (max exponential_limit linear_limit) 0, last_recalc_day2, baseline_spend2)

/-- Loop body of calculate_active_manual_allowances: an expired allowance adds
its amount to the expired total, an active one adds its remaining amount to
the active total. -/
def allowance_step (current_day : ℤ) (totals : ℝ × ℝ) (allowance : ManualAllowance) : ℝ × ℝ :=
  if allowance.is_expired current_day then (totals.1, totals.2 + allowance.amount)
  else (totals.1 + allowance.remaining_amount current_day, totals.2)

/-- SGMEngine.calculate_active_manual_allowances: the loop accumulating
(active_total, expired_total) over the allowance list. -/
def calculate_active_manual_allowances (allowances : List ManualAllowance)
    (current_day : ℤ) : ℝ × ℝ :=
  allowances.foldl (allowance_step current_day) (0, 0)

/-- Intervention label for a day with no rejected SGM spend. -/
def label_none : String := "none"

/-- Intervention label for partial SGM rejection. -/
def label_throttle : String := "throttle"

/-- Intervention label for 90% or more SGM rejection. -/
def label_shutdown : String := "shutdown"

/-- The intervention decision at the end of simulate_day: based only on the
non-reserved remainder and the SGM spend. -/
def classify_intervention (remaining_spend sgm_spend : ℝ) : String :=
  if 0 < remaining_spend ∧ sgm_spend < remaining_spend then
    let sgm_rejection_rate := (remaining_spend - sgm_spend) / remaining_spend
    if 0.9 ≤ sgm_rejection_rate then label_shutdown
    else if 0 < sgm_rejection_rate then label_throttle
    else label_none
  else label_none

/-- Legacy-parameter normalization at the top of simulate_day: a positive bare
manual_allowance amount is appended as a never-expiring allowance. -/
def normalize_allowances (manual_allowances : Option (List ManualAllowance))
    (manual_allowance : ℝ) (day_index : ℤ) : List ManualAllowance :=
  let base := manual_allowances.getD []
  if 0 < manual_allowance then
    base ++ [⟨manual_allowance, day_index, none, "Legacy compatibility"⟩]
  else base

/-- Step 1 of simulate_day: reserved-volume handling.  Returns
(reserved_spend, new_cumulative_reserved).  Cumulative usage resets when the
billing day wraps to 1 on any day after the first simulated day. -/
def reserved_step (reserved_config : Option ReservedVolumesConfig)
    (billing_day day_index : ℤ) (requested_spend cumulative_reserved_used : ℝ) : ℝ × ℝ :=
  match reserved_config with
  | some rc =>
    if 0 < rc.monthly_volume then
      let cum0 := if billing_day = 1 ∧ 0 < day_index then 0 else cumulative_reserved_used
      let reserved_available := max 0 (rc.monthly_volume - cum0)
      let reserved_spend := min requested_spend reserved_available
      (reserved_spend, cum0 + reserved_spend)
    else (0, cumulative_reserved_used)
  | none => (0, cumulative_reserved_used)

/-- The final reserved_remaining recomputation in Step 5 of simulate_day. -/
def reserved_remaining_of (reserved_config : Option ReservedVolumesConfig)
    (new_cumulative_reserved : ℝ) : ℝ :=
  match reserved_config with
  | some rc => max 0 (rc.monthly_volume - new_cumulative_reserved)
  | none => 0

/-- SGMEngine.simulate_day.  Returns
(DayResult, updated_last_recalc_day, updated_baseline_spend). -/
def simulate_day (day_index billing_day : ℤ) (requested_spend wallet_balance : ℝ)
    (accepted_history : List ℝ) (rule : SGMRule)
    (wallet_config : Option WalletConfig) (reserved_config : Option ReservedVolumesConfig)
    (cumulative_reserved_used : ℝ) (manual_allowances : Option (List ManualAllowance))
    (last_recalc_day : ℤ) (baseline_spend : Option ℝ) (manual_allowance : ℝ) :
    DayResult × ℤ × Option ℝ :=
  let wc := wallet_config.getD defaultWalletConfig
  let allowance_list := normalize_allowances manual_allowances manual_allowance day_index
  let res_step :=
    reserved_step reserved_config billing_day day_index requested_spend cumulative_reserved_used
  let reserved_spend := res_step.1
  let new_cumulative_reserved := res_step.2
  let remaining_spend := requested_spend - reserved_spend
  let limits :=
    calculate_daily_spend_limit accepted_history rule day_index last_recalc_day baseline_spend
  let daily_limit := limits.1
  let max_wallet_capacity := wc.calculate_max_capacity daily_limit
  let wallet_start := min wallet_balance max_wallet_capacity
  let allowance_totals := calculate_active_manual_allowances allowance_list day_index
  let active_allowances := allowance_totals.1
  let expired_allowances := allowance_totals.2
  let base_sgm_capacity := min (wallet_start + daily_limit) max_wallet_capacity
  let wallet_available := base_sgm_capacity + active_allowances
  let sgm_spend := min remaining_spend wallet_available
  let sgm_from_wallet := min sgm_spend base_sgm_capacity
  let sgm_from_manual := sgm_spend - sgm_from_wallet
  let wallet_end := base_sgm_capacity - sgm_from_wallet
  let total_accepted := reserved_spend + sgm_spend
  let total_rejected := requested_spend - total_accepted
  let intervention := classify_intervention remaining_spend sgm_spend
  let reserved_remaining := reserved_remaining_of reserved_config new_cumulative_reserved
  (⟨day_index, billing_day, requested_spend, total_accepted, total_rejected, reserved_spend,
    sgm_spend, daily_limit, wallet_start, wallet_end, max_wallet_capacity, intervention,
    reserved_remaining, new_cumulative_reserved, sgm_from_manual, expired_allowances⟩,
    limits.2.1, limits.2.2)

/-
  Helper lemmas shared by the claim theorems.
-/

/-- Folding the allowance loop from an arbitrary accumulator shifts the totals
obtained from the zero accumulator. -/
theorem foldl_allowance_shift (d : ℤ) (l : List ManualAllowance) :
    ∀ acc : ℝ × ℝ, l.foldl (allowance_step d) acc =
      (acc.1 + (l.foldl (allowance_step d) (0, 0)).1,
        acc.2 + (l.foldl (allowance_step d) (0, 0)).2) := by
  induction l with
  | nil => intro acc; simp
  | cons a l ih =>
    intro acc
    simp only [List.foldl_cons]
    rw [ih (allowance_step d acc a), ih (allowance_step d (0, 0) a)]
    unfold allowance_step
    by_cases h : a.is_expired d = true <;> simp [h] <;> ring

/-- Head decomposition of calculate_active_manual_allowances. -/
theorem calculate_active_cons (a : ManualAllowance) (l : List ManualAllowance) (d : ℤ) :
    calculate_active_manual_allowances (a :: l) d =
      ((if a.is_expired d = true then 0 else a.amount) +
          (calculate_active_manual_allowances l d).1,
        (if a.is_expired d = true then a.amount else 0) +
          (calculate_active_manual_allowances l d).2) := by
  unfold calculate_active_manual_allowances
  simp only [List.foldl_cons]
  rw [foldl_allowance_shift]
  unfold allowance_step ManualAllowance.remaining_amount
  by_cases h : a.is_expired d = true <;> simp [h]

/-- Both allowance totals are nonnegative when every amount is nonnegative. -/
theorem calculate_active_nonneg (l : List ManualAllowance) (d : ℤ)
    (hl : ∀ a ∈ l, 0 ≤ a.amount) :
    0 ≤ (calculate_active_manual_allowances l d).1 ∧
      0 ≤ (calculate_active_manual_allowances l d).2 := by
  induction l with
  | nil => simp [calculate_active_manual_allowances]
  | cons a l ih =>
    have ha : 0 ≤ a.amount := hl a (by simp)
    have hrest := ih (fun x hx => hl x (by simp [hx]))
    rw [calculate_active_cons]
    constructor
    · by_cases h : a.is_expired d = true <;> simp [h] <;> linarith [hrest.1]
    · by_cases h : a.is_expired d = true <;> simp [h] <;> linarith [hrest.2]

/-- The last six entries are the tail of the last seven entries when the list
has at least seven elements. -/
theorem lastN_six_of_seven (l : List ℝ) (hl : 7 ≤ l.length) :
    lastN 6 l = (lastN 7 l).drop 1 := by
  unfold lastN
  rw [List.drop_drop]
  congr 1
  omega

/-- The bookkeeping pair returned by calculate_daily_spend_limit is the input
pair, updated to (day, mean of last seven) exactly when the trigger fires. -/
theorem calc_limit_bookkeeping (h : List ℝ) (rule : SGMRule) (d last : ℤ) (b : Option ℝ) :
    (calculate_daily_spend_limit h rule d last b).2 =
      (if recalc_trigger h.length rule d last then d else last,
        if recalc_trigger h.length rule d last then some ((lastN 7 h).sum / 7) else b) := by
  unfold calculate_daily_spend_limit
  by_cases hf : recalc_trigger h.length rule d last <;>
    simp only [hf, if_true, if_false] <;>
    split_ifs <;> (try rfl) <;> (split <;> rfl)

/-- When recalculation is enabled, the history is long enough, and a baseline
is carried (post-trigger), the returned limit is the stepped-baseline value. -/
theorem calc_limit_baseline_branch (h : List ℝ) (rule : SGMRule) (d last : ℤ) (b : Option ℝ)
    (hlen : 7 ≤ h.length) (henb : rule.weekly_recalc_enabled = true) (bb : ℝ)
    (hb : (calculate_daily_spend_limit h rule d last b).2.2 = some bb) :
    (calculate_daily_spend_limit h rule d last b).1 =
      max rule.min_growth_dollars (bb * 7 * (1 + rule.growth_percentage / 100)) / 7 := by
  rw [calc_limit_bookkeeping] at hb
  simp only at hb
  unfold calculate_daily_spend_limit
  rw [if_neg (by omega : ¬ h.length < 7)]
  by_cases hf : recalc_trigger h.length rule d last
  · rw [if_pos hf] at hb ⊢
    simp only [Option.some.injEq] at hb
    simp only [henb, hf, if_true]
    rw [hb]
  · rw [if_neg hf] at hb ⊢
    simp only [henb, hb]

/-- A bounds-valid rule (growth 20, minimum 20, no weekly recalculation) used
as a concrete input in several witnesses and counterexamples. -/
def baseRule : SGMRule := ⟨"Rule", 20, 20, true, false, 0, true⟩

/-
  Claim theorems.
-/

/-- C1 (counterexample): with an active manual allowance the sum
reserved_spend + sgm_spend + manual_allowances_used overshoots accepted_spend,
because manual_allowances_used is already contained in sgm_spend.  Here a
request of 10 against an empty history with a manual allowance of 10 gives
reserved 0, sgm 10, manual-derived 50/7, accepted 10. -/
theorem claim1_counterexample :
    (simulate_day 0 1 10 0 [] baseRule none none 0
          (some [⟨10, 0, none, "Emergency"⟩]) 0 none 0).1.reserved_spend +
        (simulate_day 0 1 10 0 [] baseRule none none 0
          (some [⟨10, 0, none, "Emergency"⟩]) 0 none 0).1.sgm_spend +
        (simulate_day 0 1 10 0 [] baseRule none none 0
          (some [⟨10, 0, none, "Emergency"⟩]) 0 none 0).1.manual_allowances_used ≠
      (simulate_day 0 1 10 0 [] baseRule none none 0
          (some [⟨10, 0, none, "Emergency"⟩]) 0 none 0).1.accepted_spend := by
  have hS : simulate_day 0 1 10 0 [] baseRule none none 0
      (some [⟨10, 0, none, "Emergency"⟩]) 0 none 0 =
      (⟨0, 1, 10, 10, 0, 0, 10, 20 / 7, 0, 0, 40 / 7, label_none, 0, 0, 50 / 7, 0⟩, 0, none) := by
    unfold simulate_day normalize_allowances reserved_step reserved_remaining_of
      calculate_daily_spend_limit classify_intervention
    norm_num [recalc_trigger, baseRule, defaultWalletConfig, WalletConfig.calculate_max_capacity,
      calculate_active_manual_allowances, allowance_step, ManualAllowance.is_expired,
      ManualAllowance.remaining_amount, lastN, min_def, max_def]
  rw [hS]
  norm_num

/-- C1 (amended): accepted_spend decomposes as reserved_spend plus the
wallet-only part of sgm_spend plus manual_allowances_used; equivalently
reserved_spend + sgm_spend = accepted_spend, with the manual-derived spend
already included inside sgm_spend. -/
theorem claim1_amended (day_index billing_day : ℤ) (requested_spend wallet_balance : ℝ)
    (accepted_history : List ℝ) (rule : SGMRule) (wallet_config : Option WalletConfig)
    (reserved_config : Option ReservedVolumesConfig) (cumulative_reserved_used : ℝ)
    (manual_allowances : Option (List ManualAllowance)) (last_recalc_day : ℤ)
    (baseline_spend : Option ℝ) (manual_allowance : ℝ) :
    (simulate_day day_index billing_day requested_spend wallet_balance accepted_history rule
          wallet_config reserved_config cumulative_reserved_used manual_allowances
          last_recalc_day baseline_spend manual_allowance).1.reserved_spend +
        ((simulate_day day_index billing_day requested_spend wallet_balance accepted_history rule
          wallet_config reserved_config cumulative_reserved_used manual_allowances
          last_recalc_day baseline_spend manual_allowance).1.sgm_spend -
          (simulate_day day_index billing_day requested_spend wallet_balance accepted_history rule
          wallet_config reserved_config cumulative_reserved_used manual_allowances
          last_recalc_day baseline_spend manual_allowance).1.manual_allowances_used) +
        (simulate_day day_index billing_day requested_spend wallet_balance accepted_history rule
          wallet_config reserved_config cumulative_reserved_used manual_allowances
          last_recalc_day baseline_spend manual_allowance).1.manual_allowances_used =
      (simulate_day day_index billing_day requested_spend wallet_balance accepted_history rule
          wallet_config reserved_config cumulative_reserved_used manual_allowances
          last_recalc_day baseline_spend manual_allowance).1.accepted_spend := by
  have hacc : (simulate_day day_index billing_day requested_spend wallet_balance accepted_history
      rule wallet_config reserved_config cumulative_reserved_used manual_allowances
      last_recalc_day baseline_spend manual_allowance).1.accepted_spend =
      (simulate_day day_index billing_day requested_spend wallet_balance accepted_history rule
        wallet_config reserved_config cumulative_reserved_used manual_allowances
        last_recalc_day baseline_spend manual_allowance).1.reserved_spend +
      (simulate_day day_index billing_day requested_spend wallet_balance accepted_history rule
        wallet_config reserved_config cumulative_reserved_used manual_allowances
        last_recalc_day baseline_spend manual_allowance).1.sgm_spend := rfl
  rw [hacc]
  ring

/-- C2 (counterexample): even with validation bypassed, construction of a rule
with weekly recalculation day 7 raises, because the weekday bound is checked
unconditionally. -/
theorem claim2_counterexample :
    ∃ msg, SGMRule.post_init ⟨"Bypass", 20, 20, true, false, 7, false⟩ =
      Except.error msg := by
  refine ⟨recalc_day_msg, ?_⟩
  unfold SGMRule.post_init
  rw [if_neg (by simp), if_neg (by simp), if_pos (by norm_num)]

/-- C2 (amended): rule construction raises a validation error iff either
validation is not bypassed and the growth percentage is outside [5, 50] or
the minimum growth dollars is below 20, or - regardless of bypass - the
weekly recalculation weekday is outside [0, 6]. -/
theorem claim2_amended (r : SGMRule) :
    (∃ msg, r.post_init = Except.error msg) ↔
      ((r.validate_bounds = true ∧
          (¬((5 : ℝ) ≤ r.growth_percentage ∧ r.growth_percentage ≤ 50) ∨
            r.min_growth_dollars < 20)) ∨
        ¬((0 : ℤ) ≤ r.weekly_recalc_day ∧ r.weekly_recalc_day ≤ 6)) := by
  by_cases h1 : r.validate_bounds = true ∧
      ¬((5 : ℝ) ≤ r.growth_percentage ∧ r.growth_percentage ≤ 50)
  · have he : r.post_init = Except.error growth_bounds_msg := by
      unfold SGMRule.post_init
      rw [if_pos h1]
    exact iff_of_true ⟨growth_bounds_msg, he⟩ (Or.inl ⟨h1.1, Or.inl h1.2⟩)
  by_cases h2 : r.validate_bounds = true ∧ r.min_growth_dollars < 20
  · have he : r.post_init = Except.error min_dollars_msg := by
      unfold SGMRule.post_init
      rw [if_neg h1, if_pos h2]
    exact iff_of_true ⟨min_dollars_msg, he⟩ (Or.inl ⟨h2.1, Or.inr h2.2⟩)
  by_cases h3 : ¬((0 : ℤ) ≤ r.weekly_recalc_day ∧ r.weekly_recalc_day ≤ 6)
  · have he : r.post_init = Except.error recalc_day_msg := by
      unfold SGMRule.post_init
      rw [if_neg h1, if_neg h2, if_pos h3]
    exact iff_of_true ⟨recalc_day_msg, he⟩ (Or.inr h3)
  · have he : r.post_init = Except.ok r := by
      unfold SGMRule.post_init
      rw [if_neg h1, if_neg h2, if_neg h3]
    refine iff_of_false ?_ ?_
    · rintro ⟨msg, hmsg⟩
      rw [he] at hmsg
      exact Except.noConfusion hmsg
    · rintro (⟨hvb, hbad | hbad⟩ | hday)
      · exact h1 ⟨hvb, hbad⟩
      · exact h2 ⟨hvb, hbad⟩
      · exact h3 hday

/-- C4 (confirmed): in the bootstrap regime (fewer than 7 history entries) the
limit is min-dollars/7 on an empty history, and otherwise the maximum of the
catch-up amount, the grown running average, and the min-dollars/7 floor; in
every case the limit is at least min-dollars/7. -/
theorem claim4_bootstrap (h : List ℝ) (rule : SGMRule) (d last : ℤ) (b : Option ℝ)
    (hlen : h.length < 7) :
    (h.length = 0 →
        (calculate_daily_spend_limit h rule d last b).1 = rule.min_growth_dollars / 7) ∧
      (h.length ≠ 0 →
        (calculate_daily_spend_limit h rule d last b).1 =
          max (max ((rule.min_growth_dollars - h.sum) / ((7 - h.length : ℕ) : ℝ))
              (h.sum / (h.length : ℝ) * (1 + rule.growth_percentage / 100)))
            (rule.min_growth_dollars / 7)) ∧
      rule.min_growth_dollars / 7 ≤ (calculate_daily_spend_limit h rule d last b).1 := by
  have hcalc : (calculate_daily_spend_limit h rule d last b).1 =
      if h.length = 0 then rule.min_growth_dollars / 7
      else
        max (max ((rule.min_growth_dollars - h.sum) / ((7 - h.length : ℕ) : ℝ))
            (h.sum / (h.length : ℝ) * (1 + rule.growth_percentage / 100)))
          (rule.min_growth_dollars / 7) := by
    simp only [calculate_daily_spend_limit]
    rw [if_pos hlen]
    by_cases h0 : h.length = 0
    · rw [if_pos h0, if_pos h0]
    · rw [if_neg h0, if_neg h0]
  refine ⟨fun h0 => ?_, fun h0 => ?_, ?_⟩
  · rw [hcalc, if_pos h0]
  · rw [hcalc, if_neg h0]
  · rw [hcalc]
    by_cases h0 : h.length = 0
    · rw [if_pos h0]
    · rw [if_neg h0]
      exact le_max_right _ _

/-- C4 (witness): bootstrap day 0 with growth 20, minimum 20 and empty history
gives a daily limit of 20/7. -/
theorem claim4_witness :
    (([] : List ℝ).length < 7) ∧
      (calculate_daily_spend_limit [] baseRule 0 0 none).1 = 20 / 7 := by
  refine ⟨by simp, ?_⟩
  have := (claim4_bootstrap [] baseRule 0 0 none (by simp)).1 rfl
  simpa [baseRule] using this

/-- C7 (confirmed): with a positive-volume reserved configuration the
cumulative usage resets when the billing day wraps to 1 on a non-first day,
reserved spend is min(request, remaining quota), the cumulative usage grows by
exactly the reserved spend and stays within the monthly volume, reserved spend
never exceeds the request; with no configuration the component is a no-op. -/
theorem claim7_reserved (day_index billing_day : ℤ) (requested_spend wallet_balance : ℝ)
    (accepted_history : List ℝ) (rule : SGMRule) (wallet_config : Option WalletConfig)
    (rc : ReservedVolumesConfig) (cumulative_reserved_used : ℝ)
    (manual_allowances : Option (List ManualAllowance)) (last_recalc_day : ℤ)
    (baseline_spend : Option ℝ) (manual_allowance : ℝ) (hV : 0 < rc.monthly_volume) :
    (simulate_day day_index billing_day requested_spend wallet_balance accepted_history rule
          wallet_config (some rc) cumulative_reserved_used manual_allowances
          last_recalc_day baseline_spend manual_allowance).1.reserved_spend =
        min requested_spend (max 0 (rc.monthly_volume -
          (if billing_day = 1 ∧ 0 < day_index then 0 else cumulative_reserved_used))) ∧
      (simulate_day day_index billing_day requested_spend wallet_balance accepted_history rule
          wallet_config (some rc) cumulative_reserved_used manual_allowances
          last_recalc_day baseline_spend manual_allowance).1.cumulative_reserved_used =
        (if billing_day = 1 ∧ 0 < day_index then 0 else cumulative_reserved_used) +
          (simulate_day day_index billing_day requested_spend wallet_balance accepted_history rule
            wallet_config (some rc) cumulative_reserved_used manual_allowances
            last_recalc_day baseline_spend manual_allowance).1.reserved_spend ∧
      (cumulative_reserved_used ≤ rc.monthly_volume →
        (simulate_day day_index billing_day requested_spend wallet_balance accepted_history rule
            wallet_config (some rc) cumulative_reserved_used manual_allowances
            last_recalc_day baseline_spend manual_allowance).1.cumulative_reserved_used ≤
          rc.monthly_volume) ∧
      (simulate_day day_index billing_day requested_spend wallet_balance accepted_history rule
          wallet_config (some rc) cumulative_reserved_used manual_allowances
          last_recalc_day baseline_spend manual_allowance).1.reserved_spend ≤ requested_spend ∧
      (simulate_day day_index billing_day requested_spend wallet_balance accepted_history rule
          wallet_config none cumulative_reserved_used manual_allowances
          last_recalc_day baseline_spend manual_allowance).1.reserved_spend = 0 ∧
      (simulate_day day_index billing_day requested_spend wallet_balance accepted_history rule
          wallet_config none cumulative_reserved_used manual_allowances
          last_recalc_day baseline_spend manual_allowance).1.cumulative_reserved_used =
        cumulative_reserved_used := by
  have hstep : reserved_step (some rc) billing_day day_index requested_spend
      cumulative_reserved_used =
      (min requested_spend (max 0 (rc.monthly_volume -
          (if billing_day = 1 ∧ 0 < day_index then 0 else cumulative_reserved_used))),
        (if billing_day = 1 ∧ 0 < day_index then 0 else cumulative_reserved_used) +
          min requested_spend (max 0 (rc.monthly_volume -
            (if billing_day = 1 ∧ 0 < day_index then 0 else cumulative_reserved_used)))) := by
    unfold reserved_step
    dsimp only
    rw [if_pos hV]
  have hres : (simulate_day day_index billing_day requested_spend wallet_balance accepted_history
      rule wallet_config (some rc) cumulative_reserved_used manual_allowances
      last_recalc_day baseline_spend manual_allowance).1.reserved_spend =
      (reserved_step (some rc) billing_day day_index requested_spend
        cumulative_reserved_used).1 := rfl
  have hcum : (simulate_day day_index billing_day requested_spend wallet_balance accepted_history
      rule wallet_config (some rc) cumulative_reserved_used manual_allowances
      last_recalc_day baseline_spend manual_allowance).1.cumulative_reserved_used =
      (reserved_step (some rc) billing_day day_index requested_spend
        cumulative_reserved_used).2 := rfl
  refine ⟨by rw [hres, hstep], by rw [hcum, hres, hstep], ?_, ?_, rfl, rfl⟩
  · intro hc
    rw [hcum, hstep]
    dsimp only
    by_cases hb : billing_day = 1 ∧ 0 < day_index
    · rw [if_pos hb]
      have h2 : max (0 : ℝ) (rc.monthly_volume - 0) = rc.monthly_volume - 0 :=
        max_eq_right (by linarith)
      rw [h2]
      have h1 : min requested_spend (rc.monthly_volume - 0) ≤ rc.monthly_volume - 0 :=
        min_le_right _ _
      linarith
    · rw [if_neg hb]
      have h2 : max (0 : ℝ) (rc.monthly_volume - cumulative_reserved_used) =
          rc.monthly_volume - cumulative_reserved_used := max_eq_right (by linarith)
      rw [h2]
      have h1 : min requested_spend (rc.monthly_volume - cumulative_reserved_used) ≤
          rc.monthly_volume - cumulative_reserved_used := min_le_right _ _
      linarith
  · rw [hres, hstep]
    exact min_le_left _ _

/-- C7 (witness): volume 100, billing day wrapping to 1 on day 1 with 30
already used: the usage resets, 5 of the requested 5 is reserved spend, and
the new cumulative usage is 5. -/
theorem claim7_witness :
    (0 : ℝ) < 100 ∧
      (simulate_day 1 1 5 0 [] baseRule none (some ⟨100, 1, 30⟩) 30 none 0 none 0).1.reserved_spend
        = 5 ∧
      (simulate_day 1 1 5 0 [] baseRule none (some ⟨100, 1, 30⟩) 30 none 0
          none 0).1.cumulative_reserved_used = 5 := by
  have c := claim7_reserved 1 1 5 0 [] baseRule none ⟨100, 1, 30⟩ 30 none 0 none 0 (by norm_num)
  have h1 := c.1
  have h2 := c.2.1
  norm_num [min_def, max_def] at h1 h2
  exact ⟨by norm_num, h1, by simp [h2, h1]⟩

/-- C8 (confirmed): the intervention label of a day is a function of the
non-reserved remainder and the SGM spend only: with positive remainder and a
shortfall the rejection rate decides shutdown (rate at least 0.9, boundary
included) versus throttle (the rate is automatically positive there), and in
all other cases the label is none. -/
theorem claim8_intervention (day_index billing_day : ℤ)
    (requested_spend wallet_balance : ℝ) (accepted_history : List ℝ) (rule : SGMRule)
    (wallet_config : Option WalletConfig) (reserved_config : Option ReservedVolumesConfig)
    (cumulative_reserved_used : ℝ) (manual_allowances : Option (List ManualAllowance))
    (last_recalc_day : ℤ) (baseline_spend : Option ℝ) (manual_allowance : ℝ) :
    (simulate_day day_index billing_day requested_spend wallet_balance accepted_history rule
          wallet_config reserved_config cumulative_reserved_used manual_allowances
          last_recalc_day baseline_spend manual_allowance).1.intervention_type =
        classify_intervention
          (requested_spend -
            (simulate_day day_index billing_day requested_spend wallet_balance accepted_history
              rule wallet_config reserved_config cumulative_reserved_used manual_allowances
              last_recalc_day baseline_spend manual_allowance).1.reserved_spend)
          (simulate_day day_index billing_day requested_spend wallet_balance accepted_history rule
            wallet_config reserved_config cumulative_reserved_used manual_allowances
            last_recalc_day baseline_spend manual_allowance).1.sgm_spend ∧
      (∀ r s : ℝ, 0 < r → s < r →
        0 < (r - s) / r ∧
          classify_intervention r s =
            if 0.9 ≤ (r - s) / r then label_shutdown else label_throttle) ∧
      (∀ r s : ℝ, ¬(0 < r ∧ s < r) → classify_intervention r s = label_none) ∧
      label_shutdown = "shutdown" ∧ label_throttle = "throttle" ∧ label_none = "none" := by
  refine ⟨rfl, ?_, ?_, rfl, rfl, rfl⟩
  · intro r s hr hs
    have hrate : 0 < (r - s) / r := div_pos (by linarith) hr
    refine ⟨hrate, ?_⟩
    unfold classify_intervention
    rw [if_pos ⟨hr, hs⟩]
    by_cases h9 : (0.9 : ℝ) ≤ (r - s) / r
    · rw [if_pos h9, if_pos h9]
    · rw [if_neg h9, if_neg h9, if_pos hrate]
  · intro r s hns
    unfold classify_intervention
    rw [if_neg hns]

/-- C8 (witness): remainder 1 with SGM spend 0.05 gives rate 0.95, which is
classified shutdown; a remainder-and-spend pair outside the branch gives
none. -/
theorem claim8_witness :
    (0 : ℝ) < 1 ∧ (0.05 : ℝ) < 1 ∧ classify_intervention 1 0.05 = "shutdown" ∧
      classify_intervention 0 0 = "none" := by
  have c := claim8_intervention 0 1 0 0 [] baseRule none none 0 none 0 none 0
  have h2 := c.2.1 1 0.05 (by norm_num) (by norm_num)
  have h3 := c.2.2.1 0 0 (by norm_num)
  refine ⟨by norm_num, by norm_num, ?_, ?_⟩
  · rw [h2.2, if_pos (by norm_num)]
    rfl
  · rw [h3]
    rfl

/-- C9 (confirmed): an allowance created on day C with expiration offset E
contributes its full amount to the active total strictly before day C+E, and
from day C+E on contributes zero to the active total while its full amount is
reported in the expired total; an allowance with no offset is always active. -/
theorem claim9_allowance_expiry (a : ManualAllowance) (rest : List ManualAllowance) (day : ℤ) :
    (∀ e : ℤ, a.expiration_days = some e → day < a.created_day + e →
        (calculate_active_manual_allowances (a :: rest) day).1 =
            a.amount + (calculate_active_manual_allowances rest day).1 ∧
          (calculate_active_manual_allowances (a :: rest) day).2 =
            (calculate_active_manual_allowances rest day).2) ∧
      (∀ e : ℤ, a.expiration_days = some e → a.created_day + e ≤ day →
        (calculate_active_manual_allowances (a :: rest) day).1 =
            (calculate_active_manual_allowances rest day).1 ∧
          (calculate_active_manual_allowances (a :: rest) day).2 =
            a.amount + (calculate_active_manual_allowances rest day).2) ∧
      (a.expiration_days = none →
        (calculate_active_manual_allowances (a :: rest) day).1 =
            a.amount + (calculate_active_manual_allowances rest day).1 ∧
          (calculate_active_manual_allowances (a :: rest) day).2 =
            (calculate_active_manual_allowances rest day).2) := by
  refine ⟨fun e he hd => ?_, fun e he hd => ?_, fun he => ?_⟩
  · have hexp : a.is_expired day = false := by
      unfold ManualAllowance.is_expired
      rw [he]
      simp
      omega
    rw [calculate_active_cons]
    simp [hexp]
  · have hexp : a.is_expired day = true := by
      unfold ManualAllowance.is_expired
      rw [he]
      simpa using hd
    rw [calculate_active_cons]
    simp [hexp]
  · have hexp : a.is_expired day = false := by
      unfold ManualAllowance.is_expired
      rw [he]
    rw [calculate_active_cons]
    simp [hexp]

/-- C9 (witness): an allowance of 10 created on day 2 with offset 3 is expired
on day 5: it contributes nothing to the active total and its full amount to
the expired total. -/
theorem claim9_witness :
    (⟨10, 2, some 3, "Grant"⟩ : ManualAllowance).expiration_days = some 3 ∧
      (2 : ℤ) + 3 ≤ 5 ∧
      (calculate_active_manual_allowances [⟨10, 2, some 3, "Grant"⟩] 5).1 =
        (calculate_active_manual_allowances [] 5).1 ∧
      (calculate_active_manual_allowances [⟨10, 2, some 3, "Grant"⟩] 5).2 =
        10 + (calculate_active_manual_allowances [] 5).2 := by
  have c := (claim9_allowance_expiry ⟨10, 2, some 3, "Grant"⟩ [] 5).2.1 3 rfl (by norm_num)
  exact ⟨rfl, by norm_num, c.1, c.2⟩

/-- A steady 7-day history of 5.0 per day. -/
def history7 : List ℝ := [5, 5, 5, 5, 5, 5, 5]

/-- An 8-day history agreeing with history7 on its last 7 entries. -/
def history8 : List ℝ := [1, 5, 5, 5, 5, 5, 5, 5]

/-- A bounds-valid rule with weekly recalculation enabled, target weekday 0. -/
def enabledRule : SGMRule := ⟨"Weekly", 20, 20, true, true, 0, true⟩

/-- The daily limit is nonnegative whenever the rule minimum is. -/
theorem daily_limit_nonneg (h : List ℝ) (rule : SGMRule) (d last : ℤ) (b : Option ℝ)
    (hm : 0 ≤ rule.min_growth_dollars) :
    0 ≤ (calculate_daily_spend_limit h rule d last b).1 := by
  have hm7 : 0 ≤ rule.min_growth_dollars / 7 := by positivity
  simp only [calculate_daily_spend_limit]
  by_cases h7 : h.length < 7
  · rw [if_pos h7]
    by_cases h0 : h.length = 0
    · rw [if_pos h0]
      exact hm7
    · rw [if_neg h0]
      exact le_trans hm7 (le_max_right _ _)
  · rw [if_neg h7]
    split
    · exact div_nonneg (le_trans hm (le_max_left _ _)) (by norm_num)
    · exact le_max_right _ _

/-- The wallet capacity is nonnegative for a nonnegative daily limit, provided
any custom multiplier is nonnegative. -/
theorem capacity_nonneg (w : WalletConfig) (daily_limit : ℝ) (hl : 0 ≤ daily_limit)
    (hcm : ∀ m : ℝ, w.custom_multiplier = some m → 0 ≤ m) :
    0 ≤ w.calculate_max_capacity daily_limit := by
  unfold WalletConfig.calculate_max_capacity
  by_cases h1 : w.model = "daily_limit_2x"
  · rw [if_pos h1]
    linarith
  · rw [if_neg h1]
    by_cases h2 : w.model = "three_day_budget"
    · rw [if_pos h2]
      linarith
    · rw [if_neg h2]
      rcases hc2 : w.custom_multiplier with _ | m
      · dsimp only
        linarith
      · dsimp only
        by_cases h3 : w.model = "custom" ∧ m ≠ 0
        · rw [if_pos h3]
          exact mul_nonneg hl (hcm m hc2)
        · rw [if_neg h3]
          linarith

/-- Reserved spend never exceeds a nonnegative request. -/
theorem reserved_step_le (cfg : Option ReservedVolumesConfig) (bd di : ℤ)
    (req cum : ℝ) (hreq : 0 ≤ req) :
    (reserved_step cfg bd di req cum).1 ≤ req := by
  unfold reserved_step
  rcases cfg with _ | rc
  · exact hreq
  · dsimp only
    by_cases hv : 0 < rc.monthly_volume
    · rw [if_pos hv]
      exact min_le_left _ _
    · rw [if_neg hv]
      exact hreq

/-- Normalizing the legacy parameter preserves nonnegativity of amounts. -/
theorem normalize_allowances_nonneg (mas : Option (List ManualAllowance)) (legacy : ℝ)
    (d : ℤ) (hma : ∀ a ∈ mas.getD [], 0 ≤ a.amount) :
    ∀ a ∈ normalize_allowances mas legacy d, 0 ≤ a.amount := by
  intro a ha
  simp only [normalize_allowances] at ha
  by_cases hl : 0 < legacy
  · rw [if_pos hl] at ha
    rcases List.mem_append.mp ha with hmem | hmem
    · exact hma a hmem
    · simp only [List.mem_singleton] at hmem
      rw [hmem]
      exact le_of_lt hl
  · rw [if_neg hl] at ha
    exact hma a ha

/-- A rule that passes construction with validation on has minimum growth
dollars at least 20. -/
theorem post_init_ok_min (r : SGMRule) (hvb : r.validate_bounds = true)
    (hok : r.post_init = Except.ok r) : 20 ≤ r.min_growth_dollars := by
  by_contra hlt
  push_neg at hlt
  unfold SGMRule.post_init at hok
  by_cases h1 : r.validate_bounds = true ∧
      ¬((5 : ℝ) ≤ r.growth_percentage ∧ r.growth_percentage ≤ 50)
  · rw [if_pos h1] at hok
    exact Except.noConfusion hok
  · rw [if_neg h1, if_pos ⟨hvb, hlt⟩] at hok
    exact Except.noConfusion hok

/-- Pure arithmetic of the wallet chain: clip, refill, cap, spend. -/
theorem wallet_arith (C wallet_balance L R A : ℝ) (hC : 0 ≤ C) (hw : 0 ≤ wallet_balance)
    (hL : 0 ≤ L) (hR : 0 ≤ R) (hA : 0 ≤ A) :
    0 ≤ min wallet_balance C ∧ min wallet_balance C ≤ C ∧
      0 ≤ min (min wallet_balance C + L) C -
        min (min R (min (min wallet_balance C + L) C + A)) (min (min wallet_balance C + L) C) ∧
      min (min wallet_balance C + L) C -
        min (min R (min (min wallet_balance C + L) C + A)) (min (min wallet_balance C + L) C) ≤
        C := by
  have hWS0 : 0 ≤ min wallet_balance C := le_min hw hC
  have hB0 : 0 ≤ min (min wallet_balance C + L) C := le_min (by linarith) hC
  have hBC : min (min wallet_balance C + L) C ≤ C := min_le_right _ _
  have hS0 : 0 ≤ min R (min (min wallet_balance C + L) C + A) := le_min hR (by linarith)
  have hFWB : min (min R (min (min wallet_balance C + L) C + A))
      (min (min wallet_balance C + L) C) ≤ min (min wallet_balance C + L) C :=
    min_le_right _ _
  have hFW0 : 0 ≤ min (min R (min (min wallet_balance C + L) C + A))
      (min (min wallet_balance C + L) C) := le_min hS0 hB0
  exact ⟨hWS0, min_le_right _ _, by linarith, by linarith⟩

/-- Subtracting the wallet-sourced part recovers the same difference. -/
theorem sub_self_sub (BB SS FWW : ℝ) : BB - FWW = BB - (SS - (SS - FWW)) := by
  ring

/-- baseRule passes construction. -/
theorem baseRule_post_init_ok : baseRule.post_init = Except.ok baseRule := by
  unfold SGMRule.post_init
  rw [if_neg, if_neg, if_neg]
  · norm_num [baseRule]
  · norm_num [baseRule]
  · norm_num [baseRule]

/-- The seventh root of 1.2 is at most 53/49. -/
theorem rpow_seventh_le : ((1 : ℝ) + 20 / 100) ^ ((1 : ℝ) / 7) ≤ 53 / 49 := by
  have h0 : ((1 : ℝ) + 20 / 100) ≤ ((53 : ℝ) / 49) ^ (7 : ℕ) := by norm_num
  have h1 : ((1 : ℝ) + 20 / 100) ^ ((1 : ℝ) / 7) ≤
      (((53 : ℝ) / 49) ^ (7 : ℕ)) ^ ((1 : ℝ) / 7) :=
    Real.rpow_le_rpow (by norm_num) h0 (by norm_num)
  have h2 : (((53 : ℝ) / 49) ^ (7 : ℕ)) ^ ((1 : ℝ) / 7) = 53 / 49 := by
    rw [← Real.rpow_natCast ((53 : ℝ) / 49) 7, ← Real.rpow_mul (by norm_num)]
    rw [show ((7 : ℕ) : ℝ) * ((1 : ℝ) / 7) = 1 by norm_num, Real.rpow_one]
  linarith

/-- C3 (amended): with at least 7 history entries, when weekly recalculation is
disabled, or no baseline is carried and the recalculation trigger does not
fire on this call, the limit is the rolling-window formula
max(R7 x growth_factor - R6, R7 + min/7 - R6, 0). -/
theorem claim3_rolling (h : List ℝ) (rule : SGMRule) (d last : ℤ) (b : Option ℝ)
    (hlen : 7 ≤ h.length)
    (hcase : rule.weekly_recalc_enabled = false ∨
      (b = none ∧ ¬ recalc_trigger h.length rule d last)) :
    (calculate_daily_spend_limit h rule d last b).1 =
      max (max ((lastN 7 h).sum * ((1 + rule.growth_percentage / 100) ^ ((1 : ℝ) / 7)) -
            (lastN 6 h).sum)
          ((lastN 7 h).sum + rule.min_growth_dollars / 7 - (lastN 6 h).sum)) 0 := by
  have hnf : ¬ recalc_trigger h.length rule d last := by
    rcases hcase with he | ⟨_, hn⟩
    · intro ht
      have h1 : rule.weekly_recalc_enabled = true := ht.1
      rw [he] at h1
      exact Bool.noConfusion h1
    · exact hn
  simp only [calculate_daily_spend_limit]
  rw [if_neg hnf, if_neg hnf, if_neg (by omega : ¬ h.length < 7)]
  rcases hcase with he | ⟨hb, -⟩
  · rw [he]
  · rw [hb]
    rcases henb : rule.weekly_recalc_enabled with _ | _ <;> rfl

/-- C3 (counterexample): with recalculation enabled, a 7-entry steady history,
and no carried baseline, the call at day 7 (trigger day) returns the stepped
baseline limit 6, not the rolling-window value 55/7 that the claim
prescribes whenever no baseline exists. -/
theorem claim3_counterexample :
    enabledRule.weekly_recalc_enabled = true ∧ (7 : ℕ) ≤ history7.length ∧
      (calculate_daily_spend_limit history7 enabledRule 7 0 none).1 = 6 ∧
      max (max ((lastN 7 history7).sum *
              ((1 + enabledRule.growth_percentage / 100) ^ ((1 : ℝ) / 7)) -
            (lastN 6 history7).sum)
          ((lastN 7 history7).sum + enabledRule.min_growth_dollars / 7 -
            (lastN 6 history7).sum)) 0 = 55 / 7 ∧
      (6 : ℝ) ≠ 55 / 7 := by
  have hsum7 : (lastN 7 history7).sum = 35 := by norm_num [history7, lastN]
  have hsum6 : (lastN 6 history7).sum = 30 := by norm_num [history7, lastN]
  have ht : recalc_trigger history7.length enabledRule 7 0 := by
    refine ⟨rfl, by norm_num [history7], by norm_num, by decide⟩
  refine ⟨rfl, by norm_num [history7], ?_, ?_, by norm_num⟩
  · simp only [calculate_daily_spend_limit]
    rw [if_pos ht, if_pos ht, if_neg (by norm_num [history7] : ¬ history7.length < 7)]
    rw [hsum7]
    norm_num [enabledRule, max_def]
  · rw [hsum7, hsum6]
    simp only [enabledRule]
    have he : (35 : ℝ) * ((1 + 20 / 100) ^ ((1 : ℝ) / 7)) - 30 ≤ 55 / 7 := by
      nlinarith [rpow_seventh_le]
    rw [show (35 : ℝ) + 20 / 7 - 30 = 55 / 7 by norm_num]
    rw [max_eq_right he, max_eq_left (by norm_num : (0 : ℝ) ≤ 55 / 7)]

/-- C3 (witness): steady 7-day history of 5.0 per day with growth 20, minimum
20 and recalculation disabled follows the rolling-window formula. -/
theorem claim3_witness :
    (7 : ℕ) ≤ history7.length ∧ baseRule.weekly_recalc_enabled = false ∧
      (calculate_daily_spend_limit history7 baseRule 7 0 none).1 =
        max (max ((lastN 7 history7).sum *
                ((1 + baseRule.growth_percentage / 100) ^ ((1 : ℝ) / 7)) -
              (lastN 6 history7).sum)
            ((lastN 7 history7).sum + baseRule.min_growth_dollars / 7 -
              (lastN 6 history7).sum)) 0 :=
  ⟨by norm_num [history7], rfl,
    claim3_rolling history7 baseRule 7 0 none (by norm_num [history7]) (Or.inl rfl)⟩

/-- C5 (confirmed): with recalculation enabled and at least 7 history entries,
the baseline recalculates exactly when at least 7 days passed since the last
recalculation and the day index hits the target weekday, setting the baseline
to the mean of the last 7 accepted totals and the bookkeeping day to the
current day; otherwise the bookkeeping passes through, so after a firing at
day d no call within the next 7 days fires again; and whenever a baseline is
carried the limit is max(min-dollars, baseline x 7 x growth) / 7. -/
theorem claim5_weekly_recalc (h : List ℝ) (rule : SGMRule) (d last : ℤ) (b : Option ℝ)
    (henb : rule.weekly_recalc_enabled = true) (hlen : 7 ≤ h.length) :
    ((7 ≤ d - last ∧ d % 7 = rule.weekly_recalc_day) →
        (calculate_daily_spend_limit h rule d last b).2.1 = d ∧
          (calculate_daily_spend_limit h rule d last b).2.2 = some ((lastN 7 h).sum / 7)) ∧
      (¬(7 ≤ d - last ∧ d % 7 = rule.weekly_recalc_day) →
        (calculate_daily_spend_limit h rule d last b).2.1 = last ∧
          (calculate_daily_spend_limit h rule d last b).2.2 = b) ∧
      (∀ h2 : List ℝ, ∀ d2 : ℤ, ∀ b2 : Option ℝ, d2 - d < 7 →
        (calculate_daily_spend_limit h2 rule d2 d b2).2.1 = d ∧
          (calculate_daily_spend_limit h2 rule d2 d b2).2.2 = b2) ∧
      (∀ bb : ℝ, (calculate_daily_spend_limit h rule d last b).2.2 = some bb →
        (calculate_daily_spend_limit h rule d last b).1 =
          max rule.min_growth_dollars (bb * 7 * (1 + rule.growth_percentage / 100)) / 7) := by
  refine ⟨fun hc => ?_, fun hc => ?_, fun h2 d2 b2 hlt => ?_, fun bb hbb =>
    calc_limit_baseline_branch h rule d last b hlen henb bb hbb⟩
  · have ht : recalc_trigger h.length rule d last := ⟨henb, hlen, hc.1, hc.2⟩
    rw [calc_limit_bookkeeping]
    dsimp only
    rw [if_pos ht, if_pos ht]
    exact ⟨rfl, rfl⟩
  · have ht : ¬ recalc_trigger h.length rule d last := fun t => hc ⟨t.2.2.1, t.2.2.2⟩
    rw [calc_limit_bookkeeping]
    dsimp only
    rw [if_neg ht, if_neg ht]
    exact ⟨rfl, rfl⟩
  · have ht : ¬ recalc_trigger h2.length rule d2 d := fun t => absurd t.2.2.1 (by omega)
    rw [calc_limit_bookkeeping]
    dsimp only
    rw [if_neg ht, if_neg ht]
    exact ⟨rfl, rfl⟩

/-- C5 (witness): at day 7 with last recalculation day 0 and target weekday 0,
a steady history fires the recalculation: baseline 5, bookkeeping day 7. -/
theorem claim5_witness :
    enabledRule.weekly_recalc_enabled = true ∧ (7 : ℕ) ≤ history7.length ∧
      (7 ≤ (7 : ℤ) - 0 ∧ (7 : ℤ) % 7 = enabledRule.weekly_recalc_day) ∧
      (calculate_daily_spend_limit history7 enabledRule 7 0 none).2.1 = 7 ∧
      (calculate_daily_spend_limit history7 enabledRule 7 0 none).2.2 =
        some ((lastN 7 history7).sum / 7) := by
  have c := claim5_weekly_recalc history7 enabledRule 7 0 none rfl (by norm_num [history7])
  have h1 := c.1 ⟨by norm_num, by decide⟩
  exact ⟨rfl, by norm_num [history7], ⟨by norm_num, by decide⟩, h1.1, h1.2⟩

/-- C6 (counterexample): the claim's stated preconditions (nonnegative carried
balance, nonnegative request, bounds-validated rule) do not suffice: a manual
allowance with a negative amount drives the end-of-day wallet balance above
capacity (here 100 against capacity 40/7). -/
theorem claim6_counterexample :
    ((0 : ℝ) ≤ 0) ∧ baseRule.validate_bounds = true ∧
      baseRule.post_init = Except.ok baseRule ∧
      (simulate_day 0 1 0 0 [] baseRule none none 0
          (some [⟨-100, 0, none, "Bad"⟩]) 0 none 0).1.wallet_max_capacity <
        (simulate_day 0 1 0 0 [] baseRule none none 0
          (some [⟨-100, 0, none, "Bad"⟩]) 0 none 0).1.wallet_balance_end := by
  have hS : simulate_day 0 1 0 0 [] baseRule none none 0
      (some [⟨-100, 0, none, "Bad"⟩]) 0 none 0 =
      (⟨0, 1, 0, -680 / 7, 680 / 7, 0, -680 / 7, 20 / 7, 0, 100, 40 / 7, label_none,
        0, 0, 0, 0⟩, 0, none) := by
    unfold simulate_day normalize_allowances reserved_step reserved_remaining_of
      calculate_daily_spend_limit classify_intervention
    norm_num [recalc_trigger, baseRule, defaultWalletConfig, WalletConfig.calculate_max_capacity,
      calculate_active_manual_allowances, allowance_step, ManualAllowance.is_expired,
      ManualAllowance.remaining_amount, lastN, min_def, max_def]
  refine ⟨le_refl 0, rfl, baseRule_post_init_ok, ?_⟩
  rw [hS]
  norm_num

/-- C6 (amended): with nonnegative carried balance and request, a
bounds-validated rule, nonnegative manual-allowance amounts, and a
nonnegative custom capacity multiplier (when one is configured), the day's
wallet balances satisfy 0 <= start <= capacity and 0 <= end <= capacity,
start is the carried balance clipped to capacity, and end is
min(start + limit, capacity) minus the wallet-sourced spend. -/
theorem claim6_wallet_bounds (day_index billing_day : ℤ)
    (requested_spend wallet_balance : ℝ) (accepted_history : List ℝ) (rule : SGMRule)
    (wallet_config : Option WalletConfig) (reserved_config : Option ReservedVolumesConfig)
    (cumulative_reserved_used : ℝ) (manual_allowances : Option (List ManualAllowance))
    (last_recalc_day : ℤ) (baseline_spend : Option ℝ) (manual_allowance : ℝ)
    (hw : 0 ≤ wallet_balance) (hreq : 0 ≤ requested_spend)
    (hvb : rule.validate_bounds = true) (hok : rule.post_init = Except.ok rule)
    (hma : ∀ a ∈ manual_allowances.getD [], 0 ≤ a.amount)
    (hwc : ∀ w : WalletConfig, ∀ m : ℝ, wallet_config = some w →
      w.custom_multiplier = some m → 0 ≤ m) :
    (simulate_day day_index billing_day requested_spend wallet_balance accepted_history rule
          wallet_config reserved_config cumulative_reserved_used manual_allowances
          last_recalc_day baseline_spend manual_allowance).1.wallet_balance_start =
        min wallet_balance
          (simulate_day day_index billing_day requested_spend wallet_balance accepted_history
            rule wallet_config reserved_config cumulative_reserved_used manual_allowances
            last_recalc_day baseline_spend manual_allowance).1.wallet_max_capacity ∧
      0 ≤ (simulate_day day_index billing_day requested_spend wallet_balance accepted_history
          rule wallet_config reserved_config cumulative_reserved_used manual_allowances
          last_recalc_day baseline_spend manual_allowance).1.wallet_balance_start ∧
      (simulate_day day_index billing_day requested_spend wallet_balance accepted_history rule
          wallet_config reserved_config cumulative_reserved_used manual_allowances
          last_recalc_day baseline_spend manual_allowance).1.wallet_balance_start ≤
        (simulate_day day_index billing_day requested_spend wallet_balance accepted_history rule
          wallet_config reserved_config cumulative_reserved_used manual_allowances
          last_recalc_day baseline_spend manual_allowance).1.wallet_max_capacity ∧
      0 ≤ (simulate_day day_index billing_day requested_spend wallet_balance accepted_history
          rule wallet_config reserved_config cumulative_reserved_used manual_allowances
          last_recalc_day baseline_spend manual_allowance).1.wallet_balance_end ∧
      (simulate_day day_index billing_day requested_spend wallet_balance accepted_history rule
          wallet_config reserved_config cumulative_reserved_used manual_allowances
          last_recalc_day baseline_spend manual_allowance).1.wallet_balance_end ≤
        (simulate_day day_index billing_day requested_spend wallet_balance accepted_history rule
          wallet_config reserved_config cumulative_reserved_used manual_allowances
          last_recalc_day baseline_spend manual_allowance).1.wallet_max_capacity ∧
      (simulate_day day_index billing_day requested_spend wallet_balance accepted_history rule
          wallet_config reserved_config cumulative_reserved_used manual_allowances
          last_recalc_day baseline_spend manual_allowance).1.wallet_balance_end =
        min ((simulate_day day_index billing_day requested_spend wallet_balance accepted_history
              rule wallet_config reserved_config cumulative_reserved_used manual_allowances
              last_recalc_day baseline_spend manual_allowance).1.wallet_balance_start +
            (simulate_day day_index billing_day requested_spend wallet_balance accepted_history
              rule wallet_config reserved_config cumulative_reserved_used manual_allowances
              last_recalc_day baseline_spend manual_allowance).1.daily_spend_limit)
          (simulate_day day_index billing_day requested_spend wallet_balance accepted_history
            rule wallet_config reserved_config cumulative_reserved_used manual_allowances
            last_recalc_day baseline_spend manual_allowance).1.wallet_max_capacity -
          ((simulate_day day_index billing_day requested_spend wallet_balance accepted_history
              rule wallet_config reserved_config cumulative_reserved_used manual_allowances
              last_recalc_day baseline_spend manual_allowance).1.sgm_spend -
            (simulate_day day_index billing_day requested_spend wallet_balance accepted_history
              rule wallet_config reserved_config cumulative_reserved_used manual_allowances
              last_recalc_day baseline_spend
              manual_allowance).1.manual_allowances_used) := by
  have hm20 := post_init_ok_min rule hvb hok
  have hL := daily_limit_nonneg accepted_history rule day_index last_recalc_day baseline_spend
    (by linarith)
  have hmult : ∀ m : ℝ, (wallet_config.getD defaultWalletConfig).custom_multiplier = some m →
      0 ≤ m := by
    intro m hm
    rcases wallet_config with _ | w
    · simp [defaultWalletConfig] at hm
    · exact hwc w m rfl (by simpa using hm)
  have hC := capacity_nonneg (wallet_config.getD defaultWalletConfig)
    (calculate_daily_spend_limit accepted_history rule day_index last_recalc_day
      baseline_spend).1 hL hmult
  have hA := (calculate_active_nonneg
    (normalize_allowances manual_allowances manual_allowance day_index) day_index
    (normalize_allowances_nonneg manual_allowances manual_allowance day_index hma)).1
  have hRle := reserved_step_le reserved_config billing_day day_index requested_spend
    cumulative_reserved_used hreq
  have hR : 0 ≤ requested_spend - (reserved_step reserved_config billing_day day_index
      requested_spend cumulative_reserved_used).1 := by linarith
  have key := wallet_arith
    ((wallet_config.getD defaultWalletConfig).calculate_max_capacity
      (calculate_daily_spend_limit accepted_history rule day_index last_recalc_day
        baseline_spend).1)
    wallet_balance
    (calculate_daily_spend_limit accepted_history rule day_index last_recalc_day
      baseline_spend).1
    (requested_spend - (reserved_step reserved_config billing_day day_index requested_spend
      cumulative_reserved_used).1)
    (calculate_active_manual_allowances
      (normalize_allowances manual_allowances manual_allowance day_index) day_index).1
    hC hw hL hR hA
  exact ⟨rfl, key.1, key.2.1, key.2.2.1, key.2.2.2, sub_self_sub _ _ _⟩

/-- C6 (witness): a day with zero balance, zero request, the base rule and no
optional configuration satisfies all the wallet bounds. -/
theorem claim6_witness :
    ((0 : ℝ) ≤ 0) ∧
      0 ≤ (simulate_day 0 1 0 0 [] baseRule none none 0 none 0
          none 0).1.wallet_balance_start ∧
      (simulate_day 0 1 0 0 [] baseRule none none 0 none 0 none 0).1.wallet_balance_end ≤
        (simulate_day 0 1 0 0 [] baseRule none none 0 none 0 none 0).1.wallet_max_capacity := by
  have c := claim6_wallet_bounds 0 1 0 0 [] baseRule none none 0 none 0 none 0
    (le_refl 0) (le_refl 0) rfl baseRule_post_init_ok (by simp)
    (fun w m hw _ => by simp at hw)
  exact ⟨le_refl 0, c.2.1, c.2.2.2.2.1⟩

/-- C10 (confirmed): the limit computation reads nothing of the history beyond
its last seven entries: two histories of length at least 7 with the same last
seven entries produce identical limit and bookkeeping under identical rule,
day index, last recalculation day and baseline. -/
theorem claim10_locality (h1 h2 : List ℝ) (rule : SGMRule) (d last : ℤ) (b : Option ℝ)
    (hl1 : 7 ≤ h1.length) (hl2 : 7 ≤ h2.length) (heq : lastN 7 h1 = lastN 7 h2) :
    calculate_daily_spend_limit h1 rule d last b =
      calculate_daily_spend_limit h2 rule d last b := by
  have h6 : lastN 6 h1 = lastN 6 h2 := by
    rw [lastN_six_of_seven h1 hl1, lastN_six_of_seven h2 hl2, heq]
  have htiff : recalc_trigger h1.length rule d last ↔ recalc_trigger h2.length rule d last := by
    unfold recalc_trigger
    constructor
    · rintro ⟨a, -, c, e⟩
      exact ⟨a, hl2, c, e⟩
    · rintro ⟨a, -, c, e⟩
      exact ⟨a, hl1, c, e⟩
  simp only [calculate_daily_spend_limit]
  rw [if_neg (by omega : ¬ h1.length < 7), if_neg (by omega : ¬ h2.length < 7)]
  rw [heq, h6]
  by_cases hf : recalc_trigger h1.length rule d last
  · rw [if_pos hf, if_pos hf, if_pos (htiff.mp hf), if_pos (htiff.mp hf)]
  · rw [if_neg hf, if_neg hf, if_neg (fun t => hf (htiff.mpr t)),
      if_neg (fun t => hf (htiff.mpr t))]

/-- C10 (witness): an 8-entry history and a 7-entry history sharing their last
seven entries produce identical outputs. -/
theorem claim10_witness :
    (7 : ℕ) ≤ history8.length ∧ (7 : ℕ) ≤ history7.length ∧
      lastN 7 history8 = lastN 7 history7 ∧
      calculate_daily_spend_limit history8 baseRule 0 0 none =
        calculate_daily_spend_limit history7 baseRule 0 0 none := by
  have hq : lastN 7 history8 = lastN 7 history7 := by
    simp [lastN, history8, history7]
  exact ⟨by norm_num [history8], by norm_num [history7], hq,
    claim10_locality history8 history7 baseRule 0 0 none (by norm_num [history8])
      (by norm_num [history7]) hq⟩

end SGM

end
